import Mathlib

/-!
Shallow embedding of the light-whisper Python sidecar servers
(src-tauri/resources/whisper_server.py, funasr_server.py,
server_common.py, hf_cache_utils.py, download_models.py).

Durations and percentages are modelled as rationals; model handles as
natural-number tokens supplied by an abstract loader environment; the
black-box inference call and the WAV-header probe are environment inputs
of type Except (an exception is the error branch).
-/

/-- Result/response dictionary shape shared by both servers: every response
carries `success`; the other keys are optional, mirroring the Python dicts. -/
structure RResult where
  success : Bool
  text : Option String := none
  rtype : Option String := none
  errMsg : Option String := none
  message : Option String := none
  durationOut : Option ℚ := none
  traceback : Option String := none
deriving DecidableEq, Repr

/-- Inference device, as detected by `_detect_device`. -/
inductive Device
  | cuda
  | cpu
deriving DecidableEq, Repr

/-- ctranslate2 compute type used by the whisper variant. -/
inductive CType
  | float16
  | int8
deriving DecidableEq, Repr

namespace Whisper

/-- Mutable fields of `WhisperServer` relevant to the claims. -/
structure WState where
  model : Option Nat
  initialized : Bool
  transcription_count : Nat
  total_audio_duration : ℚ
  device : Device
  compute_type : CType
deriving DecidableEq, Repr

/-- whisper_server.py `CLEANUP_EVERY_N = 5`. -/
def CLEANUP_EVERY_N : Nat := 5

/-- Source `WhisperServer._load_model`: tries the loader at the current device; on an
exception, if the device is cuda it downgrades to cpu/int8 and calls itself
once more.  The recursive call is unrolled: after the downgrade the device is
cpu, so the source recursion terminates at the second attempt.  Returns
(success flag, new state, number of load attempts). -/
def load_model (loadFn : Device → CType → Except String Nat) (s : WState) :
    Bool × WState × Nat :=
  match loadFn s.device s.compute_type with
  | .ok m => (true, { s with model := some m }, 1)
  | .error _ =>
    if s.device = Device.cuda then
      let s1 : WState := { s with device := Device.cpu, compute_type := CType.int8 }
      match loadFn s1.device s1.compute_type with
      | .ok m => (true, { s1 with model := some m }, 2)
      | .error _ => (false, s1, 2)
    else (false, s, 1)

/-- Source `WhisperServer.initialize`: no-op success when already initialized,
otherwise `_load_model`; failure maps to type init_error.  Third component
counts load attempts performed. -/
def initServer (loadFn : Device → CType → Except String Nat) (s : WState) :
    RResult × WState × Nat :=
  if s.initialized then
    ({ success := true, message := some "model already initialized" }, s, 0)
  else
    match load_model loadFn s with
    | (true, s1, n) =>
      ({ success := true, message := some "init ok" },
       { s1 with initialized := true }, n)
    | (false, s1, n) =>
      ({ success := false, errMsg := some "whisper model load failed",
         rtype := some "init_error" }, s1, n)

/-- Source `WhisperServer._get_audio_duration`: parses byte-rate and data-size from
the WAV header (environment input `wav`); a parse failure or a zero byte rate
raises, is caught, and yields 0.0 with no accumulation; on success the
duration is added to `total_audio_duration` before returning. -/
def get_audio_duration (wav : Except String (Nat × Nat)) (s : WState) :
    ℚ × WState :=
  match wav with
  | .error _ => (0, s)
  | .ok (byte_rate, data_size) =>
    if byte_rate = 0 then (0, s)
    else
      let d : ℚ := mkRat data_size byte_rate
      (d, { s with total_audio_duration := s.total_audio_duration + d })

/-- Environment for one `transcribe_audio` call of the whisper variant. -/
structure WEnv where
  loadFn : Device → CType → Except String Nat
  fileExists : Bool
  wav : Except String (Nat × Nat)
  infer : Except String (List String × Option (String × ℚ))

/-- Observable outcome of one whisper `transcribe_audio` call. -/
structure WOut where
  result : RResult
  state : WState
  inferCalled : Bool
  gcRan : Bool
  cudaCacheReleased : Bool
  loads : Nat
deriving DecidableEq, Repr

/-- Body of `WhisperServer.transcribe_audio` after the lazy-init preamble. -/
def transcribe_core (env : WEnv) (s : WState) (loads : Nat) : WOut :=
  if env.fileExists = false then
    { result := { success := false, errMsg := some "audio file not found",
                  rtype := some "transcription_error" },
      state := s, inferCalled := false, gcRan := false,
      cudaCacheReleased := false, loads := loads }
  else
    let p := get_audio_duration env.wav s
    let duration := p.1
    let s1 := p.2
    if 0 < duration ∧ duration < mkRat 1 2 then
      { result := { success := true, text := some "",
                    durationOut := some duration },
        state := s1, inferCalled := false, gcRan := false,
        cudaCacheReleased := false, loads := loads }
    else
      match env.infer with
      | .ok (parts, _info) =>
        let final_text := (String.join parts).trim
        let s2 := { s1 with transcription_count := s1.transcription_count + 1 }
        let cleanup :=
          s2.transcription_count % CLEANUP_EVERY_N = 0 ∨ duration > 120
        { result := { success := true, text := some final_text,
                      durationOut := some duration },
          state := s2, inferCalled := true,
          gcRan := decide cleanup,
          cudaCacheReleased := decide cleanup && decide (s2.device = Device.cuda),
          loads := loads }
      | .error e =>
        { result := { success := false,
                      errMsg := some ("audio transcription failed: " ++ e),
                      rtype := some "transcription_error" },
          state := s1, inferCalled := true, gcRan := false,
          cudaCacheReleased := false, loads := loads }

/-- Source `WhisperServer.transcribe_audio`: lazy initialization, then the core. -/
def transcribe_audio (env : WEnv) (s : WState) : WOut :=
  if s.initialized = false then
    match initServer env.loadFn s with
    | (r, s1, n) =>
      if r.success = false then
        { result := r, state := s1, inferCalled := false, gcRan := false,
          cudaCacheReleased := false, loads := n }
      else transcribe_core env s1 n
  else transcribe_core env s 0

end Whisper

namespace Funasr

/-- Mutable fields of `FunASRServer` relevant to the claims (no compute
type: the funasr variant only tracks the device). -/
structure FState where
  asr_model : Option Nat
  initialized : Bool
  transcription_count : Nat
  total_audio_duration : ℚ
  device : Device
deriving DecidableEq, Repr

/-- Inner body of `FunASRServer._load_asr_model`: try the version-pinned
AutoModel construction; on an exception retry the construction without the
ct-punc revision pin. -/
def loadOnce (pin unpin : Device → Except String Nat) (d : Device) :
    Except String Nat :=
  match pin d with
  | .ok m => .ok m
  | .error _ => unpin d

/-- Source `FunASRServer._load_asr_model`: the pinned/unpinned attempt at the
current device; on an exception, if the device is cuda it downgrades to cpu
and calls itself once more (unrolled, as the recursion stops at cpu).
Returns (success flag, new state, number of full load attempts). -/
def load_asr_model (pin unpin : Device → Except String Nat) (s : FState) :
    Bool × FState × Nat :=
  match loadOnce pin unpin s.device with
  | .ok m => (true, { s with asr_model := some m }, 1)
  | .error _ =>
    if s.device = Device.cuda then
      let s1 : FState := { s with device := Device.cpu }
      match loadOnce pin unpin s1.device with
      | .ok m => (true, { s1 with asr_model := some m }, 2)
      | .error _ => (false, s1, 2)
    else (false, s, 1)

/-- Source `FunASRServer.initialize`: no-op success when already initialized,
otherwise `_load_asr_model`; failure maps to type init_error. -/
def initServer (pin unpin : Device → Except String Nat) (s : FState) :
    RResult × FState × Nat :=
  if s.initialized then
    ({ success := true, message := some "model already initialized" }, s, 0)
  else
    match load_asr_model pin unpin s with
    | (true, s1, n) =>
      ({ success := true, message := some "init ok" },
       { s1 with initialized := true }, n)
    | (false, s1, n) =>
      ({ success := false, errMsg := some "asr model load failed",
         rtype := some "init_error" }, s1, n)

/-- Source `FunASRServer._get_audio_duration`: librosa probe (environment input);
on success the duration is accumulated and returned, any exception yields
0.0 with no accumulation. -/
def get_audio_duration (probe : Except String ℚ) (s : FState) : ℚ × FState :=
  match probe with
  | .error _ => (0, s)
  | .ok d => (d, { s with total_audio_duration := s.total_audio_duration + d })

/-- Environment for one `transcribe_audio` call of the funasr variant.
`infer` abstracts `asr_model.generate` plus the duck-typed text extraction
that follows it, yielding the final text or raising. -/
structure FEnv where
  pin : Device → Except String Nat
  unpin : Device → Except String Nat
  fileExists : Bool
  probe : Except String ℚ
  infer : Except String String

/-- Observable outcome of one funasr `transcribe_audio` call. -/
structure FOut where
  result : RResult
  state : FState
  inferCalled : Bool
  gcRan : Bool
  cudaCacheReleased : Bool
  loads : Nat
deriving DecidableEq, Repr

/-- Body of `FunASRServer.transcribe_audio` after the lazy-init preamble.
There is no short-audio short-circuit; cleanup runs after every 10th
success (`transcription_count % 10 == 0`) and `_cleanup_memory` of this
variant performs garbage collection only (no cuda cache release). -/
def transcribe_core (env : FEnv) (s : FState) (loads : Nat) : FOut :=
  if env.fileExists = false then
    { result := { success := false, errMsg := some "audio file not found" },
      state := s, inferCalled := false, gcRan := false,
      cudaCacheReleased := false, loads := loads }
  else
    let p := get_audio_duration env.probe s
    let duration := p.1
    let s1 := p.2
    match env.infer with
    | .ok final_text =>
      let s2 := { s1 with transcription_count := s1.transcription_count + 1 }
      let cleanup := s2.transcription_count % 10 = 0
      { result := { success := true, text := some final_text,
                    durationOut := some duration },
        state := s2, inferCalled := true,
        gcRan := decide cleanup, cudaCacheReleased := false,
        loads := loads }
    | .error e =>
      { result := { success := false,
                    errMsg := some ("audio transcription failed: " ++ e),
                    rtype := some "transcription_error" },
        state := s1, inferCalled := true, gcRan := false,
        cudaCacheReleased := false, loads := loads }

/-- Source `FunASRServer.transcribe_audio`: lazy initialization, then the core. -/
def transcribe_audio (env : FEnv) (s : FState) : FOut :=
  if s.initialized = false then
    match initServer env.pin env.unpin s with
    | (r, s1, n) =>
      if r.success = false then
        { result := r, state := s1, inferCalled := false, gcRan := false,
          cudaCacheReleased := false, loads := n }
      else transcribe_core env s1 n
  else transcribe_core env s 0

end Funasr

namespace HFCache

/-- One file found while walking a snapshot subdirectory. -/
structure FileEnt where
  name : String
  size : Nat
deriving DecidableEq, Repr

/-- One entry of the `snapshots` directory: whether it is a subdirectory
and, when it is, the files reachable under it via `os.walk`. -/
structure SnapEnt where
  isDir : Bool
  files : List FileEnt
deriving DecidableEq, Repr

/-- On-disk shape of one `models--org--name` cache directory, as observed
by the readiness checks. -/
structure RepoCacheDir where
  repoDirExists : Bool
  refsDirExists : Bool
  refsEntryIsFile : List Bool
  snapshotsDirExists : Bool
  snapshots : List SnapEnt
deriving DecidableEq, Repr

/-- hf_cache_utils.py `_WEIGHT_EXTS`. -/
def WEIGHT_EXTS : List String := [".pt", ".bin", ".safetensors", ".onnx"]

/-- hf_cache_utils.py `_MIN_WEIGHT_SIZE = 1_000_000`. -/
def MIN_WEIGHT_SIZE : Nat := 1000000

/-- Python endswith on one candidate extension, modelled on the character
sequence of the name. -/
def strEndsWith (s pat : String) : Bool :=
  pat.data.isSuffixOf s.data

/-- Weight-file test of the walk: the file name ends with a known weight
extension and its size is at least the 1 MB threshold. -/
def isWeightFile (f : FileEnt) : Bool :=
  WEIGHT_EXTS.any (fun e => strEndsWith f.name e) && decide (MIN_WEIGHT_SIZE ≤ f.size)

/-- hf_cache_utils.py `is_hf_repo_ready`: requires the repo directory, the
snapshots directory, and at least one snapshot subdirectory containing a
weight-extension file of size at least 1 MB. -/
def is_hf_repo_ready (c : RepoCacheDir) : Bool :=
  if !c.repoDirExists then false
  else if !c.snapshotsDirExists then false
  else c.snapshots.any (fun sn => sn.isDir && sn.files.any isWeightFile)

/-- funasr_server.py `_hf_repo_ready`: the looser legacy shape check — any
regular file under `refs`, or any subdirectory under `snapshots`, counts as
cached; no weight file is required. -/
def funasr_hf_repo_ready (c : RepoCacheDir) : Bool :=
  if !c.repoDirExists then false
  else if c.refsDirExists && c.refsEntryIsFile.any (fun b => b) then true
  else if c.snapshotsDirExists && c.snapshots.any (fun sn => sn.isDir) then true
  else false

end HFCache

namespace Dl

/-- Progress stage tags of download_models.py `_emit`. -/
inductive Stage
  | downloading
  | completed
  | errored
deriving DecidableEq, Repr

def stageStr : Stage → String
  | .downloading => "downloading"
  | .completed => "completed"
  | .errored => "error"

/-- Shared downloader progress state: the `_progress` dict (model tag to
integer percentage, as an association list in insertion order), the
completed counter and the total model count. -/
structure ProgState where
  prog : List (String × ℤ)
  completedCount : Nat
  total : Nat
deriving DecidableEq, Repr

/-- Python dict assignment `m[k] = v` on the association-list model. -/
def setKey (m : List (String × ℤ)) (k : String) (v : ℤ) : List (String × ℤ) :=
  if m.any (fun p => p.1 = k) then
    m.map (fun p => if p.1 = k then (k, v) else p)
  else m ++ [(k, v)]

/-- Value sum of the progress dict, as in sum of progress values. -/
def sumVals (m : List (String × ℤ)) : ℤ :=
  (m.map Prod.snd).sum

/-- Floor of a rational, computed from its normalized fraction. -/
def ratFloor (q : ℚ) : ℤ := Int.fdiv q.num q.den

/-- Round-half-even of a rational to an integer (Python `round` semantics,
idealized over exact rationals). -/
def roundHalfEvenZ (q : ℚ) : ℤ :=
  let f := ratFloor q
  let r := q - (f : ℚ)
  if r < 1/2 then f
  else if 1/2 < r then f + 1
  else if f % 2 = 0 then f else f + 1

/-- Python `round(x, 1)` over exact rationals. -/
def round1 (q : ℚ) : ℚ := ((roundHalfEvenZ (10 * q) : ℚ)) / 10

/-- One emitted progress event (the JSON status object fields the claims
are about). -/
structure DlStatus where
  stage : String
  model : String
  progress : ℤ
  overall_progress : ℚ
  completed : Nat
  total : Nat
deriving DecidableEq, Repr

/-- download_models.py `_emit`: updates the progress map according to the
stage (downloading stores the percent, completed pins 100, error pins 0,
the two latter bump the completed counter), computes the overall percentage
as the value sum over the total count, and emits it rounded to one decimal. -/
def emit (st : ProgState) (model : String) (stage : Stage) (percent : ℤ) :
    ProgState × DlStatus :=
  let prog1 :=
    match stage with
    | .downloading => setKey st.prog model percent
    | .completed => setKey st.prog model 100
    | .errored => setKey st.prog model 0
  let completed1 :=
    match stage with
    | .downloading => st.completedCount
    | .completed => st.completedCount + 1
    | .errored => st.completedCount + 1
  let overall : ℚ :=
    if st.total = 0 then 0 else (sumVals prog1 : ℚ) / (st.total : ℚ)
  ({ prog := prog1, completedCount := completed1, total := st.total },
   { stage := stageStr stage, model := model, progress := percent,
     overall_progress := round1 overall, completed := completed1,
     total := st.total })

/-- download_models.py `main`: the fixed two-model configuration, with every
percentage initialized to 0. -/
def mainStart : ProgState :=
  { prog := [("asr", 0), ("vad", 0)], completedCount := 0, total := 2 }

end Dl

namespace Proto

/-- Classification of one input line of the server run loop: blank,
non-JSON, or a parsed command with its `action` field. -/
inductive InLine
  | blank
  | badJSON (raw : String)
  | cmd (action : Option String)

/-- Loop control after processing a line. -/
inductive LoopCtl
  | cont
  | stop
deriving DecidableEq, Repr

/-- Abstract per-action dispatch outcomes.  Each handler stands for the
corresponding method call inside the dispatch (`transcribe_audio`,
`check_status`, `get_performance_stats` wrapping, `_cleanup_memory`
wrapping); an `.error` value is an exception escaping that call. -/
structure Handlers where
  transcribeH : Except String RResult
  statusH : Except String RResult
  statsH : Except String RResult
  cleanupH : Except String RResult

/-- The response printed for a JSON-decode failure. -/
def invalidJSONResult : RResult :=
  { success := false, errMsg := some "invalid JSON command" }

/-- The response the loop-level handler prints for an exception `e` escaping
the dispatch body, with its diagnostic trace. -/
def caughtResult (e : String) : RResult :=
  { success := false, errMsg := some e,
    traceback := some ("Traceback: " ++ e) }

def exitResult : RResult :=
  { success := true, message := some "server shutting down" }

def unknownResult (a : Option String) : RResult :=
  { success := false,
    errMsg := some ("unknown command: " ++
      match a with
      | some n => n
      | none => "None") }

/-- One iteration of `BaseASRServer.run` (identical in structure to
`WhisperServer.run` and `FunASRServer.run`): blank lines are skipped,
malformed JSON yields one error response and continues, the action dispatch
runs under the loop-level try, whose except clause prints an error object
with a traceback and continues; only `exit` stops the loop. -/
def serverStep (h : Handlers) (line : InLine) : List RResult × LoopCtl :=
  match line with
  | .blank => ([], .cont)
  | .badJSON _ => ([invalidJSONResult], .cont)
  | .cmd action =>
    let body : Except String (List RResult × LoopCtl) :=
      match action with
      | some "transcribe" => h.transcribeH.map (fun r => ([r], .cont))
      | some "status" => h.statusH.map (fun r => ([r], .cont))
      | some "stats" => h.statsH.map (fun r => ([r], .cont))
      | some "cleanup" => h.cleanupH.map (fun r => ([r], .cont))
      | some "exit" => .ok ([exitResult], .stop)
      | other => .ok ([unknownResult other], .cont)
    match body with
    | .ok out => out
    | .error e => ([caughtResult e], .cont)

/-- The run loop over a whole input stream: concatenates the responses of
each line, stopping early only when a step says stop. -/
def runLoop (h : Handlers) : List InLine → List RResult
  | [] => []
  | l :: rest =>
    match serverStep h l with
    | (outs, .stop) => outs
    | (outs, .cont) => outs ++ runLoop h rest

end Proto

namespace Sup

/-- A value `sys.stdout` can hold in this model: the original stream or one
of the devnull handles opened by the suppressor (identified by a fresh
number). -/
inductive StreamV
  | orig
  | devnull (id : Nat)
deriving DecidableEq, Repr

/-- State of the reference-counted stdout suppressor
(`StdoutSuppressor` in server_common.py and the module-level
`suppress_stdout` globals of the two servers, which are line-identical).
`stdout`/`savedOriginal` are Options because Python stores None there when
unset; `closed` records every devnull handle that has been closed and
`nextId` supplies fresh handle identities. -/
structure SupState where
  refcount : ℤ
  stdout : Option StreamV
  savedOriginal : Option StreamV
  devnullHandle : Option Nat
  nextId : Nat
  closed : List Nat
deriving DecidableEq, Repr

/-- Process-start state: refcount 0, stdout is the original stream. -/
def startState : SupState :=
  { refcount := 0, stdout := some StreamV.orig, savedOriginal := none,
    devnullHandle := none, nextId := 0, closed := [] }

/-- Entering `suppress()`: on refcount 0, save the current stdout, open a
fresh devnull and redirect; then increment the refcount. -/
def suppressEnter (s : SupState) : SupState :=
  if s.refcount = 0 then
    { refcount := 1, stdout := some (StreamV.devnull s.nextId),
      savedOriginal := s.stdout, devnullHandle := some s.nextId,
      nextId := s.nextId + 1, closed := s.closed }
  else { s with refcount := s.refcount + 1 }

/-- Leaving `suppress()` (the finally block): decrement the refcount; when
it reaches zero or below, restore the saved stdout, close the devnull
handle if one is open, and clear both slots. -/
def suppressLeave (s : SupState) : SupState :=
  let r := s.refcount - 1
  if r ≤ 0 then
    { refcount := r, stdout := s.savedOriginal, savedOriginal := none,
      devnullHandle := none, nextId := s.nextId,
      closed :=
        match s.devnullHandle with
        | some h => s.closed ++ [h]
        | none => s.closed }
  else { s with refcount := r }

/-- One suppressor operation. -/
inductive SupOp
  | enter
  | leave
deriving DecidableEq, Repr

def step (s : SupState) : SupOp → SupState
  | .enter => suppressEnter s
  | .leave => suppressLeave s

def runOps (s : SupState) : List SupOp → SupState
  | [] => s
  | op :: rest => runOps (step s op) rest

/-- A properly nested sequence of enters and leaves starting from nesting
depth `c`: every leave occurs at positive depth and the sequence ends at
depth 0. -/
def balancedFrom : ℤ → List SupOp → Bool
  | c, [] => decide (c = 0)
  | c, .enter :: rest => balancedFrom (c + 1) rest
  | c, .leave :: rest => decide (0 < c) && balancedFrom (c - 1) rest

/-- Invariant tying the refcount to the redirection/bookkeeping state. -/
def Inv (s : SupState) : Prop :=
  0 ≤ s.refcount ∧
  (s.refcount = 0 → s.stdout = some StreamV.orig ∧ s.savedOriginal = none ∧
    s.devnullHandle = none) ∧
  (0 < s.refcount → ∃ k, s.stdout = some (StreamV.devnull k) ∧
    s.savedOriginal = some StreamV.orig ∧ s.devnullHandle = some k) ∧
  (∀ j, j < s.nextId → s.devnullHandle = some j ∨ j ∈ s.closed)

end Sup

/-! ## Theorems -/

/-- C7: `initialize()` is idempotent — on a server already in the Ready
(initialized) state, a further call returns a success result, performs zero
model-load attempts, and leaves the whole state (model handle and device
included) unchanged, in both engine variants. -/
theorem c7_initialize_idempotent :
    (∀ (f : Device → CType → Except String Nat) (s : Whisper.WState),
      s.initialized = true →
      Whisper.initServer f s =
        ({ success := true, message := some "model already initialized" }, s, 0)) ∧
    (∀ (pin unpin : Device → Except String Nat) (s : Funasr.FState),
      s.initialized = true →
      Funasr.initServer pin unpin s =
        ({ success := true, message := some "model already initialized" }, s, 0)) := by
  refine ⟨fun f s h => ?_, fun pin unpin s h => ?_⟩
  · simp [Whisper.initServer, h]
  · simp [Funasr.initServer, h]

/-- C7 witness: a concrete initialized whisper server, with a loader that
would fail if it were ever called, is returned unchanged with zero load
attempts. -/
theorem c7_initialize_idempotent_witness :
    Whisper.initServer (fun _ _ => Except.error "must not be called")
      { model := some 7, initialized := true, transcription_count := 3,
        total_audio_duration := 0, device := Device.cpu,
        compute_type := CType.int8 } =
    ({ success := true, message := some "model already initialized" },
     { model := some 7, initialized := true, transcription_count := 3,
       total_audio_duration := 0, device := Device.cpu,
       compute_type := CType.int8 }, 0) :=
  c7_initialize_idempotent.1 _ _ rfl

/-- C6: when the load raises on the accelerator, the device is downgraded to
cpu and the full load is retried exactly once more (two load attempts in
total, the retry at cpu); when the retry fails, or the device was already
cpu and the load fails, `initialize` returns success false with type
init_error; and the final device is cuda only if the starting device was
cuda (never upgraded). Stated for both engine variants. -/
theorem c6_device_fallback :
    (∀ (f : Device → CType → Except String Nat) (s : Whisper.WState)
        (e : String) (m : Nat),
      s.device = Device.cuda → f Device.cuda s.compute_type = Except.error e →
      f Device.cpu CType.int8 = Except.ok m →
      Whisper.load_model f s =
        (true,
         { s with device := Device.cpu, compute_type := CType.int8, model := some m },
         2)) ∧
    (∀ (f : Device → CType → Except String Nat) (s : Whisper.WState)
        (e e2 : String),
      s.initialized = false → s.device = Device.cuda →
      f Device.cuda s.compute_type = Except.error e →
      f Device.cpu CType.int8 = Except.error e2 →
      Whisper.initServer f s =
        ({ success := false, errMsg := some "whisper model load failed",
           rtype := some "init_error" },
         { s with device := Device.cpu, compute_type := CType.int8 }, 2)) ∧
    (∀ (f : Device → CType → Except String Nat) (s : Whisper.WState)
        (e : String),
      s.initialized = false → s.device = Device.cpu →
      f Device.cpu s.compute_type = Except.error e →
      Whisper.initServer f s =
        ({ success := false, errMsg := some "whisper model load failed",
           rtype := some "init_error" }, s, 1)) ∧
    (∀ (f : Device → CType → Except String Nat) (s : Whisper.WState),
      (Whisper.initServer f s).2.1.device = Device.cuda →
      s.device = Device.cuda) ∧
    (∀ (pin unpin : Device → Except String Nat) (s : Funasr.FState)
        (e : String) (m : Nat),
      s.device = Device.cuda →
      Funasr.loadOnce pin unpin Device.cuda = Except.error e →
      Funasr.loadOnce pin unpin Device.cpu = Except.ok m →
      Funasr.load_asr_model pin unpin s =
        (true, { s with device := Device.cpu, asr_model := some m }, 2)) ∧
    (∀ (pin unpin : Device → Except String Nat) (s : Funasr.FState)
        (e e2 : String),
      s.initialized = false → s.device = Device.cuda →
      Funasr.loadOnce pin unpin Device.cuda = Except.error e →
      Funasr.loadOnce pin unpin Device.cpu = Except.error e2 →
      Funasr.initServer pin unpin s =
        ({ success := false, errMsg := some "asr model load failed",
           rtype := some "init_error" }, { s with device := Device.cpu }, 2)) ∧
    (∀ (pin unpin : Device → Except String Nat) (s : Funasr.FState),
      (Funasr.initServer pin unpin s).2.1.device = Device.cuda →
      s.device = Device.cuda) := by
  refine ⟨fun f s e m h1 h2 h3 => ?_, fun f s e e2 h0 h1 h2 h3 => ?_,
    fun f s e h0 h1 h2 => ?_, fun f s h => ?_,
    fun pin unpin s e m h1 h2 h3 => ?_, fun pin unpin s e e2 h0 h1 h2 h3 => ?_,
    fun pin unpin s h => ?_⟩
  · simp [Whisper.load_model, h1, h2, h3]
  · simp [Whisper.initServer, Whisper.load_model, h0, h1, h2, h3]
  · simp [Whisper.initServer, Whisper.load_model, h0, h1, h2]
  · cases hdev : s.device with
    | cuda => rfl
    | cpu =>
      exfalso
      by_cases hi : s.initialized
      · rw [Whisper.initServer] at h
        simp [hi, hdev] at h
      · rcases hf : f Device.cpu s.compute_type with e | m <;>
          simp [Whisper.initServer, Whisper.load_model, hi, hdev, hf] at h
  · simp [Funasr.load_asr_model, h1, h2, h3]
  · simp [Funasr.initServer, Funasr.load_asr_model, h0, h1, h2, h3]
  · cases hdev : s.device with
    | cuda => rfl
    | cpu =>
      exfalso
      by_cases hi : s.initialized
      · rw [Funasr.initServer] at h
        simp [hi, hdev] at h
      · rcases hf : Funasr.loadOnce pin unpin Device.cpu with e | m <;>
          simp [Funasr.initServer, Funasr.load_asr_model, hi, hdev, hf] at h

/-- C6 witness: a loader that always raises, started on cuda, makes
`initialize` fail with type init_error after the single cpu retry, with the
device left at cpu. -/
theorem c6_device_fallback_witness :
    Whisper.initServer (fun _ _ => Except.error "cuda out of memory")
      { model := none, initialized := false, transcription_count := 0,
        total_audio_duration := 0, device := Device.cuda,
        compute_type := CType.float16 } =
    ({ success := false, errMsg := some "whisper model load failed",
       rtype := some "init_error" },
     { model := none, initialized := false, transcription_count := 0,
       total_audio_duration := 0, device := Device.cpu,
       compute_type := CType.int8 }, 2) :=
  c6_device_fallback.2.1 _ _ "cuda out of memory" "cuda out of memory"
    rfl rfl rfl rfl

/-- C5 counterexample: the readiness check owned by the funasr server variant
accepts a cache directory that contains only a single refs file and no
snapshots at all (so certainly no weight file), while the shared checker
rejects the same directory — refuting the claim that every server variant
requires a weight file of at least 1 MB. -/
theorem c5_counterexample :
    HFCache.funasr_hf_repo_ready
      { repoDirExists := true, refsDirExists := true,
        refsEntryIsFile := [true], snapshotsDirExists := false,
        snapshots := [] } = true ∧
    HFCache.is_hf_repo_ready
      { repoDirExists := true, refsDirExists := true,
        refsEntryIsFile := [true], snapshotsDirExists := false,
        snapshots := [] } = false := by
  decide

/-- C5 amended: the shared checker `hf_cache_utils.is_hf_repo_ready` (used
by the whisper server and the downloader) returns true exactly when the
repo directory and its snapshots directory exist and some snapshot
subdirectory holds a file with a known weight extension of size at least
1 MB (1,000,000 bytes); the funasr-local `_hf_repo_ready` is a looser
shape check, true exactly when the repo directory exists and either the
refs directory has a regular file or the snapshots directory has a
subdirectory, with no weight-file requirement. -/
theorem c5_cache_readiness :
    (∀ c : HFCache.RepoCacheDir,
      HFCache.is_hf_repo_ready c = true ↔
        (c.repoDirExists = true ∧ c.snapshotsDirExists = true ∧
         ∃ sn ∈ c.snapshots, sn.isDir = true ∧
           ∃ f ∈ sn.files,
             (∃ e ∈ HFCache.WEIGHT_EXTS, HFCache.strEndsWith f.name e = true) ∧
             HFCache.MIN_WEIGHT_SIZE ≤ f.size)) ∧
    (∀ c : HFCache.RepoCacheDir,
      HFCache.funasr_hf_repo_ready c = true ↔
        (c.repoDirExists = true ∧
         ((c.refsDirExists = true ∧ true ∈ c.refsEntryIsFile) ∨
          (c.snapshotsDirExists = true ∧ ∃ sn ∈ c.snapshots, sn.isDir = true)))) := by
  constructor
  · intro c
    simp only [HFCache.is_hf_repo_ready, HFCache.isWeightFile]
    by_cases h1 : c.repoDirExists <;> by_cases h2 : c.snapshotsDirExists <;>
      simp [h1, h2, List.any_eq_true, HFCache.isWeightFile,
        Bool.and_eq_true, decide_eq_true_eq, and_assoc]
  · intro c
    simp only [HFCache.funasr_hf_repo_ready]
    by_cases h1 : c.repoDirExists <;>
      by_cases h2 : c.refsDirExists && c.refsEntryIsFile.any (fun b => b) <;>
        by_cases h3 : c.snapshotsDirExists <;>
          simp_all [List.any_eq_true]

/-- C5 witness: the amended characterization applied at a concrete cache
directory — one snapshot subdirectory holding a 2 MB safetensors file makes
the shared checker report ready. -/
theorem c5_cache_readiness_witness :
    HFCache.is_hf_repo_ready
      { repoDirExists := true, refsDirExists := false, refsEntryIsFile := [],
        snapshotsDirExists := true,
        snapshots := [{ isDir := true
                        files := [{ name := "model.safetensors", size := 2097152 }] }] } =
      true :=
  (c5_cache_readiness.1 _).mpr
    ⟨rfl, rfl,
     ⟨{ isDir := true
        files := [{ name := "model.safetensors", size := 2097152 }] },
      by decide, rfl,
      ⟨{ name := "model.safetensors", size := 2097152 }, by decide,
       ⟨".safetensors", by decide, by decide⟩, by decide⟩⟩⟩

/-- C1 counterexample: on an initialized whisper server, an inference
exception whose message indicates an empty/out-of-bounds tensor condition
is still reported as success false with type transcription_error — not as
a successful empty transcription as the claim requires. -/
theorem c1_counterexample :
    (Whisper.transcribe_audio
      { loadFn := fun _ _ => Except.ok 0, fileExists := true,
        wav := Except.ok (16000, 32000),
        infer := Except.error
          "index 0 is out of bounds for dimension 0 with size 0" }
      { model := some 1, initialized := true, transcription_count := 0,
        total_audio_duration := 0, device := Device.cpu,
        compute_type := CType.int8 }).result.success = false ∧
    (Whisper.transcribe_audio
      { loadFn := fun _ _ => Except.ok 0, fileExists := true,
        wav := Except.ok (16000, 32000),
        infer := Except.error
          "index 0 is out of bounds for dimension 0 with size 0" }
      { model := some 1, initialized := true, transcription_count := 0,
        total_audio_duration := 0, device := Device.cpu,
        compute_type := CType.int8 }).result.rtype =
      some "transcription_error" := by
  decide

/-- C1 amended: the except clause of `transcribe_audio` does not inspect
the exception message — every runtime exception raised by the inference
call (empty-tensor messages included) yields success false with type
transcription_error, in both engine variants; no exception is converted
into a successful empty transcription. -/
theorem c1_exception_classification :
    (∀ (env : Whisper.WEnv) (s : Whisper.WState) (e : String),
      s.initialized = true → env.fileExists = true →
      ¬(0 < (Whisper.get_audio_duration env.wav s).1 ∧
        (Whisper.get_audio_duration env.wav s).1 < mkRat 1 2) →
      env.infer = Except.error e →
      (Whisper.transcribe_audio env s).result.success = false ∧
      (Whisper.transcribe_audio env s).result.rtype =
        some "transcription_error") ∧
    (∀ (env : Funasr.FEnv) (s : Funasr.FState) (e : String),
      s.initialized = true → env.fileExists = true →
      env.infer = Except.error e →
      (Funasr.transcribe_audio env s).result.success = false ∧
      (Funasr.transcribe_audio env s).result.rtype =
        some "transcription_error") := by
  constructor
  · intro env s e hinit hfile hshort hinf
    simp [Whisper.transcribe_audio, Whisper.transcribe_core, hinit, hfile,
      hshort, hinf]
  · intro env s e hinit hfile hinf
    simp [Funasr.transcribe_audio, Funasr.transcribe_core, hinit, hfile, hinf]

/-- C1 witness: the amended statement applied to a concrete initialized
whisper server whose inference call raises on a 2-second file. -/
theorem c1_exception_classification_witness :
    (Whisper.transcribe_audio
      { loadFn := fun _ _ => Except.ok 0, fileExists := true,
        wav := Except.ok (16000, 32000), infer := Except.error "boom" }
      { model := some 1, initialized := true, transcription_count := 0,
        total_audio_duration := 0, device := Device.cpu,
        compute_type := CType.int8 }).result.success = false ∧
    (Whisper.transcribe_audio
      { loadFn := fun _ _ => Except.ok 0, fileExists := true,
        wav := Except.ok (16000, 32000), infer := Except.error "boom" }
      { model := some 1, initialized := true, transcription_count := 0,
        total_audio_duration := 0, device := Device.cpu,
        compute_type := CType.int8 }).result.rtype =
      some "transcription_error" :=
  c1_exception_classification.1 _ _ "boom" rfl rfl (by decide) rfl

/-- C2 counterexample: the funasr variant has no short-audio short-circuit.
On an initialized funasr server, an audio file whose probed duration is
3/10 of a second (strictly between 0 and 0.5) still reaches the underlying
inference call, and the result carries the model text rather than the
mandated empty string. -/
theorem c2_counterexample :
    ((0 : ℚ) < mkRat 3 10 ∧ mkRat 3 10 < mkRat 1 2) ∧
    (Funasr.transcribe_audio
      { pin := fun _ => Except.ok 0, unpin := fun _ => Except.ok 0,
        fileExists := true, probe := Except.ok (mkRat 3 10),
        infer := Except.ok "hello" }
      { asr_model := some 1, initialized := true, transcription_count := 0,
        total_audio_duration := 0, device := Device.cpu }).inferCalled =
      true ∧
    (Funasr.transcribe_audio
      { pin := fun _ => Except.ok 0, unpin := fun _ => Except.ok 0,
        fileExists := true, probe := Except.ok (mkRat 3 10),
        infer := Except.ok "hello" }
      { asr_model := some 1, initialized := true, transcription_count := 0,
        total_audio_duration := 0, device := Device.cpu }).result.text =
      some "hello" := by
  decide

/-- C2 amended: only the whisper variant short-circuits sub-half-second
audio: on an initialized whisper server, a successfully probed duration d
with 0 < d < 0.5 yields success true with empty text and the inference
call is not invoked; the funasr variant invokes inference on every
existing file regardless of its duration. -/
theorem c2_short_audio :
    (∀ (env : Whisper.WEnv) (s : Whisper.WState) (br ds : Nat),
      s.initialized = true → env.fileExists = true →
      env.wav = Except.ok (br, ds) → br ≠ 0 →
      0 < mkRat ds br → mkRat ds br < mkRat 1 2 →
      (Whisper.transcribe_audio env s).result.success = true ∧
      (Whisper.transcribe_audio env s).result.text = some "" ∧
      (Whisper.transcribe_audio env s).inferCalled = false) ∧
    (∀ (env : Funasr.FEnv) (s : Funasr.FState),
      s.initialized = true → env.fileExists = true →
      (Funasr.transcribe_audio env s).inferCalled = true) := by
  constructor
  · intro env s br ds hinit hfile hwav hbr hd1 hd2
    simp [Whisper.transcribe_audio, Whisper.transcribe_core,
      Whisper.get_audio_duration, hinit, hfile, hwav, hbr, hd1, hd2]
  · intro env s hinit hfile
    rcases hinf : env.infer with e | t <;>
      simp [Funasr.transcribe_audio, Funasr.transcribe_core, hinit, hfile,
        hinf]

/-- C2 witness: the short-circuit on a concrete initialized whisper server
and a 0.3-second WAV header (byte rate 32000, data size 9600), and the
unconditional inference of a concrete funasr server. -/
theorem c2_short_audio_witness :
    ((Whisper.transcribe_audio
      { loadFn := fun _ _ => Except.ok 0, fileExists := true,
        wav := Except.ok (32000, 9600),
        infer := Except.error "must not be reached" }
      { model := some 1, initialized := true, transcription_count := 0,
        total_audio_duration := 0, device := Device.cpu,
        compute_type := CType.int8 }).result.success = true ∧
    (Whisper.transcribe_audio
      { loadFn := fun _ _ => Except.ok 0, fileExists := true,
        wav := Except.ok (32000, 9600),
        infer := Except.error "must not be reached" }
      { model := some 1, initialized := true, transcription_count := 0,
        total_audio_duration := 0, device := Device.cpu,
        compute_type := CType.int8 }).result.text = some "" ∧
    (Whisper.transcribe_audio
      { loadFn := fun _ _ => Except.ok 0, fileExists := true,
        wav := Except.ok (32000, 9600),
        infer := Except.error "must not be reached" }
      { model := some 1, initialized := true, transcription_count := 0,
        total_audio_duration := 0, device := Device.cpu,
        compute_type := CType.int8 }).inferCalled = false) ∧
    (Funasr.transcribe_audio
      { pin := fun _ => Except.ok 0, unpin := fun _ => Except.ok 0,
        fileExists := true, probe := Except.ok 2,
        infer := Except.ok "ok" }
      { asr_model := some 1, initialized := true, transcription_count := 0,
        total_audio_duration := 0, device := Device.cpu }).inferCalled =
      true :=
  ⟨c2_short_audio.1 _ _ 32000 9600 rfl rfl rfl (by decide) (by decide)
      (by decide),
   c2_short_audio.2 _ _ rfl rfl⟩

/-- C3 counterexample: on the funasr variant, a successful transcription of
a 121-second file (duration greater than 120) as the first request runs no
reclamation pass at all — its cleanup trigger is `count mod 10 == 0` with
no duration condition — refuting the claim for "every engine variant". -/
theorem c3_counterexample :
    (120 : ℚ) < 121 ∧
    (Funasr.transcribe_audio
      { pin := fun _ => Except.ok 0, unpin := fun _ => Except.ok 0,
        fileExists := true, probe := Except.ok 121,
        infer := Except.ok "long text" }
      { asr_model := some 1, initialized := true, transcription_count := 0,
        total_audio_duration := 0, device := Device.cpu }).result.success =
      true ∧
    (Funasr.transcribe_audio
      { pin := fun _ => Except.ok 0, unpin := fun _ => Except.ok 0,
        fileExists := true, probe := Except.ok 121,
        infer := Except.ok "long text" }
      { asr_model := some 1, initialized := true, transcription_count := 0,
        total_audio_duration := 0, device := Device.cpu }).gcRan = false := by
  decide

/-- C3 amended: in the whisper variant a reclamation pass (garbage
collection, plus accelerator cache release exactly when the device is
cuda) runs after a successful full-inference transcription exactly when
the incremented request count is divisible by 5 or the probed duration
exceeds 120 seconds, and never on the short-audio success path nor on a
failed transcription; in the funasr variant the pass (garbage collection
only, never an accelerator cache release) runs exactly when the
incremented request count is divisible by 10, with no duration trigger. -/
theorem c3_cleanup_policy :
    (∀ (env : Whisper.WEnv) (s : Whisper.WState) (br ds : Nat)
        (parts : List String) (info : Option (String × ℚ)),
      s.initialized = true → env.fileExists = true →
      env.wav = Except.ok (br, ds) → br ≠ 0 →
      ¬(0 < mkRat ds br ∧ mkRat ds br < mkRat 1 2) →
      env.infer = Except.ok (parts, info) →
      (Whisper.transcribe_audio env s).gcRan =
        decide ((s.transcription_count + 1) % Whisper.CLEANUP_EVERY_N = 0 ∨
          mkRat ds br > 120) ∧
      (Whisper.transcribe_audio env s).cudaCacheReleased =
        (decide ((s.transcription_count + 1) % Whisper.CLEANUP_EVERY_N = 0 ∨
          mkRat ds br > 120) && decide (s.device = Device.cuda))) ∧
    (∀ (env : Whisper.WEnv) (s : Whisper.WState) (br ds : Nat),
      s.initialized = true → env.fileExists = true →
      env.wav = Except.ok (br, ds) → br ≠ 0 →
      0 < mkRat ds br → mkRat ds br < mkRat 1 2 →
      (Whisper.transcribe_audio env s).gcRan = false ∧
      (Whisper.transcribe_audio env s).cudaCacheReleased = false) ∧
    (∀ (env : Whisper.WEnv) (s : Whisper.WState) (e : String),
      s.initialized = true → env.fileExists = true →
      env.infer = Except.error e →
      (Whisper.transcribe_audio env s).gcRan = false ∧
      (Whisper.transcribe_audio env s).cudaCacheReleased = false) ∧
    (∀ (env : Funasr.FEnv) (s : Funasr.FState) (txt : String),
      s.initialized = true → env.fileExists = true →
      env.infer = Except.ok txt →
      (Funasr.transcribe_audio env s).gcRan =
        decide ((s.transcription_count + 1) % 10 = 0) ∧
      (Funasr.transcribe_audio env s).cudaCacheReleased = false) ∧
    (∀ (env : Funasr.FEnv) (s : Funasr.FState) (e : String),
      s.initialized = true → env.fileExists = true →
      env.infer = Except.error e →
      (Funasr.transcribe_audio env s).gcRan = false ∧
      (Funasr.transcribe_audio env s).cudaCacheReleased = false) := by
  refine ⟨fun env s br ds parts info hinit hfile hwav hbr hshort hinf => ?_,
    fun env s br ds hinit hfile hwav hbr hd1 hd2 => ?_,
    fun env s e hinit hfile hinf => ?_,
    fun env s txt hinit hfile hinf => ?_,
    fun env s e hinit hfile hinf => ?_⟩
  · simp [Whisper.transcribe_audio, Whisper.transcribe_core,
      Whisper.get_audio_duration, hinit, hfile, hwav, hbr, hshort, hinf]
  · simp [Whisper.transcribe_audio, Whisper.transcribe_core,
      Whisper.get_audio_duration, hinit, hfile, hwav, hbr, hd1, hd2]
  · rcases hwav : env.wav with we | p
    · simp [Whisper.transcribe_audio, Whisper.transcribe_core,
        Whisper.get_audio_duration, hinit, hfile, hwav, hinf]
    · rcases p with ⟨br, ds⟩
      by_cases hbr : br = 0
      · simp [Whisper.transcribe_audio, Whisper.transcribe_core,
          Whisper.get_audio_duration, hinit, hfile, hwav, hbr, hinf]
      · by_cases hs : 0 < mkRat ds br ∧ mkRat ds br < mkRat 1 2
        · simp [Whisper.transcribe_audio, Whisper.transcribe_core,
            Whisper.get_audio_duration, hinit, hfile, hwav, hbr, hs]
        · simp [Whisper.transcribe_audio, Whisper.transcribe_core,
            Whisper.get_audio_duration, hinit, hfile, hwav, hbr, hs, hinf]
  · rcases hp : env.probe with pe | d <;>
      simp [Funasr.transcribe_audio, Funasr.transcribe_core,
        Funasr.get_audio_duration, hinit, hfile, hp, hinf]
  · rcases hp : env.probe with pe | d <;>
      simp [Funasr.transcribe_audio, Funasr.transcribe_core,
        Funasr.get_audio_duration, hinit, hfile, hp, hinf]

/-- C3 witness: concrete whisper instances — the 5th successful request of
a 2-second file triggers the pass (with no cuda release on cpu), the 1st
does not — and a concrete funasr 10th-request trigger. -/
theorem c3_cleanup_policy_witness :
    ((Whisper.transcribe_audio
      { loadFn := fun _ _ => Except.ok 0, fileExists := true,
        wav := Except.ok (16000, 32000), infer := Except.ok (["hi"], none) }
      { model := some 1, initialized := true, transcription_count := 4,
        total_audio_duration := 0, device := Device.cpu,
        compute_type := CType.int8 }).gcRan =
      decide ((4 + 1) % Whisper.CLEANUP_EVERY_N = 0 ∨
        mkRat 32000 16000 > 120)) ∧
    ((Whisper.transcribe_audio
      { loadFn := fun _ _ => Except.ok 0, fileExists := true,
        wav := Except.ok (16000, 32000), infer := Except.ok (["hi"], none) }
      { model := some 1, initialized := true, transcription_count := 0,
        total_audio_duration := 0, device := Device.cpu,
        compute_type := CType.int8 }).gcRan =
      decide ((0 + 1) % Whisper.CLEANUP_EVERY_N = 0 ∨
        mkRat 32000 16000 > 120)) ∧
    ((Funasr.transcribe_audio
      { pin := fun _ => Except.ok 0, unpin := fun _ => Except.ok 0,
        fileExists := true, probe := Except.ok 2, infer := Except.ok "t" }
      { asr_model := some 1, initialized := true, transcription_count := 9,
        total_audio_duration := 0, device := Device.cpu }).gcRan =
      decide ((9 + 1) % 10 = 0)) :=
  ⟨(c3_cleanup_policy.1 _ _ 16000 32000 ["hi"] none rfl rfl rfl (by decide)
      (by decide) rfl).1,
   (c3_cleanup_policy.1 _ _ 16000 32000 ["hi"] none rfl rfl rfl (by decide)
      (by decide) rfl).1,
   (c3_cleanup_policy.2.2.2.1 _ _ "t" rfl rfl rfl).1⟩

/-- C4 counterexample: on the whisper variant, the short-audio success
(success true, empty text) does NOT increment the request counter, and a
failed inference still accumulates the probed duration into the running
total — refuting both directions of the claim. -/
theorem c4_counterexample :
    ((Whisper.transcribe_audio
      { loadFn := fun _ _ => Except.ok 0, fileExists := true,
        wav := Except.ok (32000, 9600), infer := Except.ok ([], none) }
      { model := some 1, initialized := true, transcription_count := 0,
        total_audio_duration := 0, device := Device.cpu,
        compute_type := CType.int8 }).result.success = true ∧
     (Whisper.transcribe_audio
      { loadFn := fun _ _ => Except.ok 0, fileExists := true,
        wav := Except.ok (32000, 9600), infer := Except.ok ([], none) }
      { model := some 1, initialized := true, transcription_count := 0,
        total_audio_duration := 0, device := Device.cpu,
        compute_type := CType.int8 }).state.transcription_count = 0) ∧
    ((Whisper.transcribe_audio
      { loadFn := fun _ _ => Except.ok 0, fileExists := true,
        wav := Except.ok (16000, 32000), infer := Except.error "boom" }
      { model := some 1, initialized := true, transcription_count := 0,
        total_audio_duration := 0, device := Device.cpu,
        compute_type := CType.int8 }).result.success = false ∧
     (Whisper.transcribe_audio
      { loadFn := fun _ _ => Except.ok 0, fileExists := true,
        wav := Except.ok (16000, 32000), infer := Except.error "boom" }
      { model := some 1, initialized := true, transcription_count := 0,
        total_audio_duration := 0, device := Device.cpu,
        compute_type := CType.int8 }).state.total_audio_duration = 2) := by
  refine ⟨⟨by decide, by decide⟩, ⟨by decide, ?_⟩⟩
  simp [Whisper.transcribe_audio, Whisper.transcribe_core,
    Whisper.get_audio_duration]
  norm_num [mkRat, Rat.normalize]

/-- C4 amended: in the whisper variant, the request counter is incremented
exactly on a successful full-inference transcription; the short-audio
success path leaves it unchanged; the cumulative-duration counter is
accumulated by the duration probe itself whenever the WAV header parses
(byte rate nonzero), before the outcome is known — so a transcription that
then fails has still accumulated its duration; and a missing audio file
mutates nothing. -/
theorem c4_stats_counters :
    (∀ (env : Whisper.WEnv) (s : Whisper.WState) (br ds : Nat)
        (parts : List String) (info : Option (String × ℚ)),
      s.initialized = true → env.fileExists = true →
      env.wav = Except.ok (br, ds) → br ≠ 0 →
      ¬(0 < mkRat ds br ∧ mkRat ds br < mkRat 1 2) →
      env.infer = Except.ok (parts, info) →
      (Whisper.transcribe_audio env s).state.transcription_count =
        s.transcription_count + 1 ∧
      (Whisper.transcribe_audio env s).state.total_audio_duration =
        s.total_audio_duration + mkRat ds br) ∧
    (∀ (env : Whisper.WEnv) (s : Whisper.WState) (br ds : Nat),
      s.initialized = true → env.fileExists = true →
      env.wav = Except.ok (br, ds) → br ≠ 0 →
      0 < mkRat ds br → mkRat ds br < mkRat 1 2 →
      (Whisper.transcribe_audio env s).result.success = true ∧
      (Whisper.transcribe_audio env s).state.transcription_count =
        s.transcription_count ∧
      (Whisper.transcribe_audio env s).state.total_audio_duration =
        s.total_audio_duration + mkRat ds br) ∧
    (∀ (env : Whisper.WEnv) (s : Whisper.WState) (br ds : Nat) (e : String),
      s.initialized = true → env.fileExists = true →
      env.wav = Except.ok (br, ds) → br ≠ 0 →
      ¬(0 < mkRat ds br ∧ mkRat ds br < mkRat 1 2) →
      env.infer = Except.error e →
      (Whisper.transcribe_audio env s).result.success = false ∧
      (Whisper.transcribe_audio env s).state.transcription_count =
        s.transcription_count ∧
      (Whisper.transcribe_audio env s).state.total_audio_duration =
        s.total_audio_duration + mkRat ds br) ∧
    (∀ (env : Whisper.WEnv) (s : Whisper.WState),
      s.initialized = true → env.fileExists = false →
      (Whisper.transcribe_audio env s).state = s) := by
  refine ⟨fun env s br ds parts info hinit hfile hwav hbr hshort hinf => ?_,
    fun env s br ds hinit hfile hwav hbr hd1 hd2 => ?_,
    fun env s br ds e hinit hfile hwav hbr hshort hinf => ?_,
    fun env s hinit hfile => ?_⟩
  · simp [Whisper.transcribe_audio, Whisper.transcribe_core,
      Whisper.get_audio_duration, hinit, hfile, hwav, hbr, hshort, hinf]
  · simp [Whisper.transcribe_audio, Whisper.transcribe_core,
      Whisper.get_audio_duration, hinit, hfile, hwav, hbr, hd1, hd2]
  · simp [Whisper.transcribe_audio, Whisper.transcribe_core,
      Whisper.get_audio_duration, hinit, hfile, hwav, hbr, hshort, hinf]
  · simp [Whisper.transcribe_audio, Whisper.transcribe_core, hinit, hfile]

/-- C4 witness: both accumulation behaviors at concrete inputs — a
successful 2-second transcription bumps the counter and the total; a
short 0.3-second success leaves the counter unchanged. -/
theorem c4_stats_counters_witness :
    ((Whisper.transcribe_audio
      { loadFn := fun _ _ => Except.ok 0, fileExists := true,
        wav := Except.ok (16000, 32000), infer := Except.ok (["hi"], none) }
      { model := some 1, initialized := true, transcription_count := 7,
        total_audio_duration := 5, device := Device.cpu,
        compute_type := CType.int8 }).state.transcription_count = 7 + 1 ∧
     (Whisper.transcribe_audio
      { loadFn := fun _ _ => Except.ok 0, fileExists := true,
        wav := Except.ok (16000, 32000), infer := Except.ok (["hi"], none) }
      { model := some 1, initialized := true, transcription_count := 7,
        total_audio_duration := 5, device := Device.cpu,
        compute_type := CType.int8 }).state.total_audio_duration =
        5 + mkRat 32000 16000) ∧
    ((Whisper.transcribe_audio
      { loadFn := fun _ _ => Except.ok 0, fileExists := true,
        wav := Except.ok (32000, 9600), infer := Except.ok ([], none) }
      { model := some 1, initialized := true, transcription_count := 7,
        total_audio_duration := 5, device := Device.cpu,
        compute_type := CType.int8 }).result.success = true ∧
     (Whisper.transcribe_audio
      { loadFn := fun _ _ => Except.ok 0, fileExists := true,
        wav := Except.ok (32000, 9600), infer := Except.ok ([], none) }
      { model := some 1, initialized := true, transcription_count := 7,
        total_audio_duration := 5, device := Device.cpu,
        compute_type := CType.int8 }).state.transcription_count = 7 ∧
     (Whisper.transcribe_audio
      { loadFn := fun _ _ => Except.ok 0, fileExists := true,
        wav := Except.ok (32000, 9600), infer := Except.ok ([], none) }
      { model := some 1, initialized := true, transcription_count := 7,
        total_audio_duration := 5, device := Device.cpu,
        compute_type := CType.int8 }).state.total_audio_duration =
        5 + mkRat 9600 32000) :=
  ⟨c4_stats_counters.1 _ _ 16000 32000 ["hi"] none rfl rfl rfl (by decide)
      (by decide) rfl,
   c4_stats_counters.2.1 _ _ 32000 9600 rfl rfl rfl (by decide) (by decide)
      (by decide)⟩

/-- C8: a malformed-JSON line produces exactly one success-false response
and the loop moves on to the next line; an exception escaping the
per-command dispatch (shown for the transcribe and status handlers) is
caught at loop level, reported as one success-false response carrying a
traceback, and the loop moves on; and the only input line on which the
loop stops is an `exit` command — so no single bad request terminates the
server. -/
theorem c8_protocol_resilience :
    (∀ (h : Proto.Handlers) (raw : String) (rest : List Proto.InLine),
      Proto.runLoop h (Proto.InLine.badJSON raw :: rest) =
        Proto.invalidJSONResult :: Proto.runLoop h rest) ∧
    (∀ (h : Proto.Handlers) (e : String) (rest : List Proto.InLine),
      h.transcribeH = Except.error e →
      Proto.runLoop h (Proto.InLine.cmd (some "transcribe") :: rest) =
        Proto.caughtResult e :: Proto.runLoop h rest) ∧
    (∀ (h : Proto.Handlers) (e : String) (rest : List Proto.InLine),
      h.statusH = Except.error e →
      Proto.runLoop h (Proto.InLine.cmd (some "status") :: rest) =
        Proto.caughtResult e :: Proto.runLoop h rest) ∧
    (∀ (h : Proto.Handlers) (l : Proto.InLine),
      (Proto.serverStep h l).2 = Proto.LoopCtl.stop →
      l = Proto.InLine.cmd (some "exit")) := by
  refine ⟨fun h raw rest => ?_, fun h e rest ht => ?_, fun h e rest ht => ?_,
    fun h l hstop => ?_⟩
  · simp [Proto.runLoop, Proto.serverStep]
  · simp [Proto.runLoop, Proto.serverStep, Except.map, ht]
  · simp [Proto.runLoop, Proto.serverStep, Except.map, ht]
  · cases l with
    | blank => simp [Proto.serverStep] at hstop
    | badJSON raw => simp [Proto.serverStep] at hstop
    | cmd action =>
      rcases action with _ | a
      · simp [Proto.serverStep] at hstop
      · by_cases h1 : a = "transcribe"
        · subst h1
          rcases ht : h.transcribeH with e | r <;>
            simp [Proto.serverStep, Except.map, ht] at hstop
        · by_cases h2 : a = "status"
          · subst h2
            rcases ht : h.statusH with e | r <;>
              simp [Proto.serverStep, Except.map, ht] at hstop
          · by_cases h3 : a = "stats"
            · subst h3
              rcases ht : h.statsH with e | r <;>
                simp [Proto.serverStep, Except.map, ht] at hstop
            · by_cases h4 : a = "cleanup"
              · subst h4
                rcases ht : h.cleanupH with e | r <;>
                  simp [Proto.serverStep, Except.map, ht] at hstop
              · by_cases h5 : a = "exit"
                · subst h5; rfl
                · exfalso
                  simp [Proto.serverStep, h1, h2, h3, h4, h5] at hstop

/-- C8 witness: a concrete handler set whose transcribe call raises; the
bad-JSON line and the raising transcribe line each produce one
success-false response and the loop reaches the following status line. -/
theorem c8_protocol_resilience_witness :
    Proto.runLoop
      { transcribeH := Except.error "boom",
        statusH := Except.ok { success := true },
        statsH := Except.ok { success := true },
        cleanupH := Except.ok { success := true } }
      [Proto.InLine.badJSON "not json",
       Proto.InLine.cmd (some "transcribe"),
       Proto.InLine.cmd (some "status")] =
      [Proto.invalidJSONResult, Proto.caughtResult "boom",
       { success := true }] := by
  have h1 := c8_protocol_resilience.1
    { transcribeH := Except.error "boom",
      statusH := Except.ok { success := true },
      statsH := Except.ok { success := true },
      cleanupH := Except.ok { success := true } }
    "not json"
    [Proto.InLine.cmd (some "transcribe"), Proto.InLine.cmd (some "status")]
  have h2 := c8_protocol_resilience.2.1
    { transcribeH := Except.error "boom",
      statusH := Except.ok { success := true },
      statsH := Except.ok { success := true },
      cleanupH := Except.ok { success := true } }
    "boom" [Proto.InLine.cmd (some "status")] rfl
  rw [h1, h2]
  rfl

/-- Round-half-even to one decimal is the identity on integers. -/
theorem roundHalfEvenZ_intCast (n : ℤ) : Dl.roundHalfEvenZ (n : ℚ) = n := by
  simp only [Dl.roundHalfEvenZ, Dl.ratFloor, Rat.num_intCast, Rat.den_intCast,
    Nat.cast_one, Int.fdiv_one]
  norm_num

/-- Rounding to one decimal does not change an integer half: values of the
form s/2 are emitted exactly. -/
theorem round1_int_half (s : ℤ) : Dl.round1 ((s : ℚ) / 2) = (s : ℚ) / 2 := by
  have h10 : (10 : ℚ) * ((s : ℚ) / 2) = ((5 * s : ℤ) : ℚ) := by
    push_cast
    ring
  rw [Dl.round1, h10, roundHalfEvenZ_intCast]
  push_cast
  ring

/-- Rounding to one decimal is the identity on integer values. -/
theorem round1_intCast (n : ℤ) : Dl.round1 (n : ℚ) = n := by
  have h10 : (10 : ℚ) * (n : ℚ) = ((10 * n : ℤ) : ℚ) := by
    push_cast
    ring
  rw [Dl.round1, h10, roundHalfEvenZ_intCast]
  push_cast
  ring

/-- C9: with the two-model downloader configuration (total count 2 and
integer per-model percentages), every event emitted by `_emit` reports an
overall_progress equal to the arithmetic mean of the current per-model
percentages — the value sum of the updated progress map over the total
model count, with the one-decimal rounding exact; a completed stage pins
the percentage of that model to 100 and an error stage pins it to 0; and at the
claimed instant (one model completed at 100, the other downloading at 40)
the emitted overall_progress is exactly 70. -/
theorem c9_overall_progress :
    (∀ (st : Dl.ProgState) (model : String) (stage : Dl.Stage) (percent : ℤ),
      st.total = 2 →
      (Dl.emit st model stage percent).2.overall_progress =
        (Dl.sumVals (Dl.emit st model stage percent).1.prog : ℚ) /
          (st.total : ℚ)) ∧
    (∀ (st : Dl.ProgState) (model : String) (percent : ℤ),
      (Dl.emit st model Dl.Stage.completed percent).1.prog =
        Dl.setKey st.prog model 100 ∧
      (Dl.emit st model Dl.Stage.errored percent).1.prog =
        Dl.setKey st.prog model 0) ∧
    ((Dl.emit (Dl.emit Dl.mainStart "asr" Dl.Stage.completed 100).1 "vad"
        Dl.Stage.downloading 40).2.overall_progress = 70) := by
  refine ⟨fun st model stage percent htot => ?_, fun st model percent =>
    ⟨rfl, rfl⟩, ?_⟩
  · simp only [Dl.emit, htot]
    norm_num
    exact round1_int_half _
  · have hst1 : (Dl.emit Dl.mainStart "asr" Dl.Stage.completed 100).1 =
        { prog := [("asr", 100), ("vad", 0)], completedCount := 1,
          total := 2 } := by
      decide
    have hsum : Dl.sumVals
        (Dl.setKey [("asr", (100 : ℤ)), ("vad", 0)] "vad" 40) = 140 := by
      decide
    rw [hst1]
    simp only [Dl.emit]
    norm_num [hsum]
    rw [show (70 : ℚ) = ((70 : ℤ) : ℚ) by norm_num, round1_intCast]

/-- C9 witness: the mean formula applied to the concrete two-model start
state of `main` on a downloading event at 40 percent. -/
theorem c9_overall_progress_witness :
    (Dl.emit Dl.mainStart "asr" Dl.Stage.downloading 40).2.overall_progress =
      (Dl.sumVals (Dl.emit Dl.mainStart "asr"
        Dl.Stage.downloading 40).1.prog : ℚ) / ((Dl.mainStart.total : ℕ) : ℚ) :=
  c9_overall_progress.1 Dl.mainStart "asr" Dl.Stage.downloading 40 rfl

/-- The suppressor invariant holds at process start. -/
theorem sup_inv_start : Sup.Inv Sup.startState := by
  refine ⟨le_refl 0, fun _ => ⟨rfl, rfl, rfl⟩, fun h => absurd h (by decide),
    fun j hj => ?_⟩
  simp [Sup.startState] at hj

/-- Entering `suppress()` preserves the invariant and increments the
reference count by one. -/
theorem sup_enter_inv (s : Sup.SupState) (h : Sup.Inv s) :
    Sup.Inv (Sup.suppressEnter s) ∧
    (Sup.suppressEnter s).refcount = s.refcount + 1 := by
  obtain ⟨hnn, h0, hpos, htrack⟩ := h
  by_cases hz : s.refcount = 0
  · obtain ⟨hst, hsv, hdh⟩ := h0 hz
    rw [Sup.suppressEnter, if_pos hz]
    refine ⟨⟨by norm_num, fun hc => absurd hc (by norm_num), ?_, ?_⟩, by
      rw [hz]
      norm_num⟩
    · intro _
      exact ⟨s.nextId, rfl, by rw [hst], rfl⟩
    · intro j hj
      rcases Nat.lt_succ_iff_lt_or_eq.mp hj with hlt | heq
      · rcases htrack j hlt with hcontra | hmem
        · rw [hdh] at hcontra
          exact absurd hcontra (by simp)
        · exact Or.inr hmem
      · exact Or.inl (by rw [heq])
  · rw [Sup.suppressEnter, if_neg hz]
    have hp : 0 < s.refcount := lt_of_le_of_ne hnn (fun hh => hz hh.symm)
    obtain ⟨k, hst, hsv, hdh⟩ := hpos hp
    refine ⟨⟨by dsimp only; omega, fun hc => absurd hc (by dsimp only; omega),
      fun _ => ⟨k, hst, hsv, hdh⟩, htrack⟩, rfl⟩

/-- Leaving `suppress()` at positive depth preserves the invariant and
decrements the reference count by one. -/
theorem sup_leave_inv (s : Sup.SupState) (h : Sup.Inv s)
    (hp : 0 < s.refcount) :
    Sup.Inv (Sup.suppressLeave s) ∧
    (Sup.suppressLeave s).refcount = s.refcount - 1 := by
  obtain ⟨hnn, h0, hpos, htrack⟩ := h
  obtain ⟨k, hst, hsv, hdh⟩ := hpos hp
  by_cases hone : s.refcount - 1 ≤ 0
  · rw [Sup.suppressLeave, if_pos hone]
    refine ⟨⟨by dsimp only; omega, fun _ => ⟨by rw [hsv], rfl, rfl⟩,
      fun hc => absurd hc (by dsimp only; omega), ?_⟩, by dsimp only⟩
    intro j hj
    rcases htrack j hj with hh | hmem
    · refine Or.inr ?_
      rw [hdh] at hh ⊢
      simp at hh
      simp [hh]
    · refine Or.inr ?_
      rw [hdh]
      simp [hmem]
  · rw [Sup.suppressLeave, if_neg hone]
    refine ⟨⟨by dsimp only; omega, fun hc => absurd hc (by dsimp only; omega),
      fun _ => ⟨k, hst, hsv, hdh⟩, htrack⟩, rfl⟩

/-- Running a sequence that is properly nested relative to the current
depth lands back at depth zero with the invariant intact. -/
theorem sup_run_balanced :
    ∀ (ops : List Sup.SupOp) (s : Sup.SupState), Sup.Inv s →
      Sup.balancedFrom s.refcount ops = true →
      Sup.Inv (Sup.runOps s ops) ∧ (Sup.runOps s ops).refcount = 0
  | [], s, hInv, hbal => by
    simp [Sup.balancedFrom] at hbal
    exact ⟨hInv, by simp [Sup.runOps, hbal]⟩
  | .enter :: rest, s, hInv, hbal => by
    have he := sup_enter_inv s hInv
    have hbal2 : Sup.balancedFrom (Sup.suppressEnter s).refcount rest =
        true := by
      rw [he.2]
      exact hbal
    exact sup_run_balanced rest (Sup.suppressEnter s) he.1 hbal2
  | .leave :: rest, s, hInv, hbal => by
    rw [show Sup.balancedFrom s.refcount (Sup.SupOp.leave :: rest) =
      (decide (0 < s.refcount) && Sup.balancedFrom (s.refcount - 1) rest)
      from rfl, Bool.and_eq_true, decide_eq_true_eq] at hbal
    have hl := sup_leave_inv s hInv hbal.1
    have hbal2 : Sup.balancedFrom (Sup.suppressLeave s).refcount rest =
        true := by
      rw [hl.2]
      exact hbal.2
    exact sup_run_balanced rest (Sup.suppressLeave s) hl.1 hbal2

/-- Every prefix of a properly nested run keeps the invariant. -/
theorem sup_run_segment :
    ∀ (p : List Sup.SupOp) (s : Sup.SupState) (q : List Sup.SupOp),
      Sup.Inv s → Sup.balancedFrom s.refcount (p ++ q) = true →
      Sup.Inv (Sup.runOps s p)
  | [], s, q, hInv, _ => hInv
  | .enter :: p, s, q, hInv, hbal => by
    have he := sup_enter_inv s hInv
    have hbal2 : Sup.balancedFrom (Sup.suppressEnter s).refcount (p ++ q) =
        true := by
      rw [he.2]
      exact hbal
    exact sup_run_segment p (Sup.suppressEnter s) q he.1 hbal2
  | .leave :: p, s, q, hInv, hbal => by
    rw [show Sup.balancedFrom s.refcount ((Sup.SupOp.leave :: p) ++ q) =
      (decide (0 < s.refcount) && Sup.balancedFrom (s.refcount - 1) (p ++ q))
      from rfl, Bool.and_eq_true, decide_eq_true_eq] at hbal
    have hl := sup_leave_inv s hInv hbal.1
    have hbal2 : Sup.balancedFrom (Sup.suppressLeave s).refcount (p ++ q) =
        true := by
      rw [hl.2]
      exact hbal.2
    exact sup_run_segment p (Sup.suppressLeave s) q hl.1 hbal2

/-- C10: the stdout suppressor redirects to the null device only on the
0-to-1 transition (a nested enter only increments the count and leaves
stdout untouched); and for every balanced (properly nested) sequence of
enters and exits from the start state, after the outermost exit the
reference count is back to 0, sys.stdout is restored to the original
stream, no devnull handle is left open — every handle ever opened has been
closed — and the reference count never goes negative at any prefix of the
run. -/
theorem c10_stdout_suppressor :
    (∀ s : Sup.SupState, 0 < s.refcount →
      Sup.suppressEnter s = { s with refcount := s.refcount + 1 }) ∧
    (∀ s : Sup.SupState, s.refcount = 0 →
      (Sup.suppressEnter s).stdout = some (Sup.StreamV.devnull s.nextId) ∧
      (Sup.suppressEnter s).refcount = 1) ∧
    (∀ ops : List Sup.SupOp, Sup.balancedFrom 0 ops = true →
      (Sup.runOps Sup.startState ops).refcount = 0 ∧
      (Sup.runOps Sup.startState ops).stdout = some Sup.StreamV.orig ∧
      (Sup.runOps Sup.startState ops).devnullHandle = none ∧
      (∀ j, j < (Sup.runOps Sup.startState ops).nextId →
        j ∈ (Sup.runOps Sup.startState ops).closed)) ∧
    (∀ (p q : List Sup.SupOp), Sup.balancedFrom 0 (p ++ q) = true →
      0 ≤ (Sup.runOps Sup.startState p).refcount) := by
  refine ⟨fun s hp => ?_, fun s hz => ?_, fun ops hbal => ?_,
    fun p q hbal => ?_⟩
  · rw [Sup.suppressEnter, if_neg (by omega)]
  · rw [Sup.suppressEnter, if_pos hz]
    exact ⟨rfl, rfl⟩
  · have hrun := sup_run_balanced ops Sup.startState sup_inv_start hbal
    obtain ⟨⟨hnn, h0, hpos2, htrack⟩, hzero⟩ := hrun
    obtain ⟨hst, hsv, hdh⟩ := h0 hzero
    refine ⟨hzero, hst, hdh, fun j hj => ?_⟩
    rcases htrack j hj with hh | hmem
    · rw [hdh] at hh
      exact absurd hh (by simp)
    · exact hmem
  · exact (sup_run_segment p Sup.startState q sup_inv_start hbal).1

/-- C10 witness: a concrete nested sequence enter-enter-leave-leave is
balanced, ends restored at refcount 0 with the original stdout and no open
devnull handle, and a strict prefix of it has a nonnegative count. -/
theorem c10_stdout_suppressor_witness :
    Sup.balancedFrom 0
      [Sup.SupOp.enter, Sup.SupOp.enter, Sup.SupOp.leave, Sup.SupOp.leave] =
      true ∧
    (Sup.runOps Sup.startState
      [Sup.SupOp.enter, Sup.SupOp.enter, Sup.SupOp.leave,
       Sup.SupOp.leave]).refcount = 0 ∧
    (Sup.runOps Sup.startState
      [Sup.SupOp.enter, Sup.SupOp.enter, Sup.SupOp.leave,
       Sup.SupOp.leave]).stdout = some Sup.StreamV.orig ∧
    (Sup.runOps Sup.startState
      [Sup.SupOp.enter, Sup.SupOp.enter, Sup.SupOp.leave,
       Sup.SupOp.leave]).devnullHandle = none ∧
    0 ≤ (Sup.runOps Sup.startState [Sup.SupOp.enter]).refcount := by
  have h := c10_stdout_suppressor.2.2.1
    [Sup.SupOp.enter, Sup.SupOp.enter, Sup.SupOp.leave, Sup.SupOp.leave]
    (by decide)
  have hp := c10_stdout_suppressor.2.2.2 [Sup.SupOp.enter]
    [Sup.SupOp.enter, Sup.SupOp.leave, Sup.SupOp.leave] (by decide)
  exact ⟨by decide, h.1, h.2.1, h.2.2.1, hp⟩
